import Mathlib

/-!
Verification development for the `AccessibilityValidator` module
(`src/AccessibilityValidator.ts`): a browser widget validator that audits
configured DOM subtrees with an external rule engine (axe-core) and renders
per-widget UI overlays (outline, badge, popup).

The TypeScript source is shallowly embedded below:

* pure data (configuration, violation records, widget states) becomes plain
  Lean structures;
* DOM state touched by the code (element containment, selector queries,
  per-widget UI, timers, document listeners) is made explicit: functions take
  and return state values, and externally visible actions are recorded as
  explicit event/write lists;
* `async` code that can reject is modelled with `Except`, where `.error`
  stands for an exception escaping to the caller (a rejected promise for the
  async paths, a synchronous throw otherwise);
* browser platform APIs used by the source are modelled after their
  documented semantics: `Node.contains` is inclusive-descendant containment,
  and `querySelectorAll` throws a `SyntaxError` on a selector string that
  does not parse as a non-empty selector list (in particular on the empty
  string).
-/

/-! ## Violation records (the engine's output format)

Mirrors the `AxeNode` / `AxeViolation` interfaces of the source.  Only the
fields that the embedded code paths read are carried.  `target` is optional
because the source guards it (`node.target ? ... : null`). -/

/-- An affected-node descriptor of a violation (`AxeNode` in the source).
`target` is the CSS selector path usable for DOM lookup. -/
structure AxeNode where
  html : String
  target : Option (List String)
deriving DecidableEq, Repr

/-- A violation reported by the engine (`AxeViolation` in the source). -/
structure AxeViolation where
  id : String
  impact : Option String
  description : String
  help : String
  nodes : List AxeNode
deriving DecidableEq, Repr

/-! ## Engine run options -/

/-- The two `runOnly` restriction kinds accepted by the engine. -/
inductive RunOnlyType where
  | rule
  | tag
deriving DecidableEq, Repr

/-- The `runOnly` restriction object (`{type, values}`). -/
structure RunOnly where
  type : RunOnlyType
  values : List String
deriving DecidableEq, Repr

/-- Options passed to `axe.run` (`AxeRunOptions` in the source; only the
field the embedded code writes). -/
structure AxeRunOptions where
  runOnly : Option RunOnly
deriving DecidableEq, Repr

/-! ## Configuration

Mirrors `AccessibilityValidatorConfig` after `mergeConfig` has filled the
defaults, restricted to fields the embedded code paths read.  `axeRules` and
`axeTags` are `Option`s because in the source they may be `undefined`; a
present-but-empty list is distinct from an absent one (JS `[]` is truthy, and
the source additionally checks `.length > 0`). -/

structure Config where
  widgetSelectors : List String
  axeRules : Option (List String)
  axeTags : Option (List String)
  debounceDelay : Nat
  enableMutationObserver : Bool
  maxRetries : Nat
  enableDebugLogging : Bool

/-- `buildAxeOptions`: the options object built inside `recheckAll` before
each engine invocation.

Source (lines 628-638):
`if (this.config.axeRules && this.config.axeRules.length > 0)` sets
`runOnly = {type:'rule', values: axeRules}`; otherwise
`if (this.config.axeTags && this.config.axeTags.length > 0)` sets
`runOnly = {type:'tag', values: axeTags}`; otherwise no restriction.
`undefined` is falsy and `[]` is truthy with length 0, so both conditions
reduce to "present and non-empty", i.e. `(getD []).length > 0`. -/
def buildAxeOptions (c : Config) : AxeRunOptions :=
  if 0 < (c.axeRules.getD []).length then
    AxeRunOptions.mk (some (RunOnly.mk RunOnlyType.rule (c.axeRules.getD [])))
  else if 0 < (c.axeTags.getD []).length then
    AxeRunOptions.mk (some (RunOnly.mk RunOnlyType.tag (c.axeTags.getD [])))
  else
    AxeRunOptions.mk none

/-! ## Widget state -/

/-- Per-widget cached state (`WidgetState` in the source).  The count is an
integer because the sentinel default is `-1`. -/
structure WidgetState where
  lastViolationCount : Int
  hasUI : Bool
deriving DecidableEq, Repr

/-- The default returned by `getWidgetState` for a widget with no cache
entry: `{ lastViolationCount: -1, hasUI: false }` (source line 366). -/
def defaultWidgetState : WidgetState := WidgetState.mk (-1) false

/-- The widget cache (`widgetCache : WeakMap<Element, WidgetState>`),
modelled as an association list keyed by element identity. -/
def StateMap : Type := List (Nat × WidgetState)

/-- `widgetCache.get(widget) || {lastViolationCount: -1, hasUI: false}`
(source `getWidgetState`). -/
def lookupState : StateMap → Nat → WidgetState
  | [], _ => defaultWidgetState
  | p :: rest, w => if p.1 = w then p.2 else lookupState rest w

/-- `widgetCache.set(widget, state)`: replace the entry for the key, or add
one. -/
def setState : StateMap → Nat → WidgetState → StateMap
  | [], w, st => [(w, st)]
  | p :: rest, w, st => if p.1 = w then (w, st) :: rest else p :: setState rest w st

/-! ## DOM model

Elements are identified by a `Nat`.  `ancestors` lists the ids of the proper
ancestors of the element, so `Node.contains` (inclusive descendant per the
DOM standard) is "same id or among the ancestors".  `matchesSel` is the set
of selector strings the element matches (CSS matching itself is abstracted:
an element knows which of the relevant selectors it matches). -/

structure Elem where
  id : Nat
  ancestors : List Nat
  matchesSel : List String
deriving DecidableEq, Repr

/-- A document: the live elements, plus the `document.querySelector`
resolution for node-target paths (abstract: what the browser would return
for a given selector string). -/
structure Doc where
  elems : List Elem
  query : String → Option Elem

/-- Whether an element (by identity) is live in the document. -/
def Doc.lives (d : Doc) (e : Elem) : Bool :=
  d.elems.any (fun x => x.id == e.id)

/-- `widget.contains(element)`: inclusive-descendant containment per the DOM
standard (`Node.contains`), so a widget contains itself. -/
def containsElem (w e : Elem) : Bool :=
  w.id == e.id || e.ancestors.contains w.id

/-! ### Selector string handling

`getCombinedSelector` joins the configured selectors with `', '`
(source line 305).  `document.querySelectorAll(s)` throws a `SyntaxError`
DOMException when `s` does not parse as a non-empty selector list (DOM
standard, "scope match a selectors string"); in particular the empty string
is invalid.  Parsing is modelled structurally: split on commas, trim spaces,
and require every component to be non-empty. -/

/-- `this.config.widgetSelectors.join(', ')` (source `getCombinedSelector`). -/
def joinWithCommaSpace : List String → String
  | [] => ""
  | [s] => s
  | s :: rest => s ++ ", " ++ joinWithCommaSpace rest

/-- Split a character list at commas (model of CSS selector-list
separation). -/
def splitOnComma : List Char → List (List Char)
  | [] => [[]]
  | c :: rest =>
    let r := splitOnComma rest
    if c = ',' then [] :: r
    else
      match r with
      | [] => [[c]]
      | g :: gs => (c :: g) :: gs

/-- Drop leading and trailing spaces. -/
def trimSpaces (cs : List Char) : List Char :=
  ((cs.dropWhile (fun c => c == ' ')).reverse.dropWhile (fun c => c == ' ')).reverse

/-- Parse a selector-list string: `none` models a parse failure (invalid
selector, hence a thrown `SyntaxError`).  The empty string and any list with
an empty component are invalid. -/
def parseSelectorList (s : String) : Option (List String) :=
  let comps := (splitOnComma s.data).map (fun cs => String.mk (trimSpaces cs))
  if comps.all (fun c => c != "") then some comps else none

/-- `document.querySelectorAll(s)` over the modelled document: the elements
matching any component of the selector list, or a thrown `SyntaxError` when
the string does not parse. -/
def querySelectorAllModel (d : Doc) (s : String) : Except String (List Elem) :=
  match parseSelectorList s with
  | none => Except.error "SyntaxError"
  | some comps =>
    Except.ok (d.elems.filter (fun e => comps.any (fun comp => e.matchesSel.contains comp)))

/-- `getAllWidgets` (source line 333):
`document.querySelectorAll(this.getCombinedSelector())`. -/
def getAllWidgetsModel (d : Doc) (selectors : List String) : Except String (List Elem) :=
  querySelectorAllModel d (joinWithCommaSpace selectors)

/-! ## UI rendering (`clearWidgetUI` / `renderWidgetUI`)

DOM writes performed by the renderer are recorded explicitly; the returned
`WidgetState` is the value the source stores with `setWidgetState` (in the
no-op branch nothing is stored and the state is returned unchanged). -/

/-- A DOM write performed by the UI renderer on / under widget `w`. -/
inductive DomWrite where
  | removeOutlineClass (w : Nat)
  | removeBadgeAndPopup (w : Nat)
  | addOutlineClass (w : Nat)
  | appendBadge (w : Nat) (count : Nat)
  | appendPopup (w : Nat) (violations : List AxeViolation)
  | registerOutsideClick (w : Nat)
deriving DecidableEq, Repr

/-- The DOM writes of `clearWidgetUI` (source lines 476-480): remove the
outline class and remove the direct-child badge/popup nodes.  Both calls are
unconditional and safe when no UI exists. -/
def clearWidgetUIWrites (w : Nat) : List DomWrite :=
  [DomWrite.removeOutlineClass w, DomWrite.removeBadgeAndPopup w]

/-- The state stored by `clearWidgetUI`:
`{ hasUI: false, lastViolationCount: 0 }`. -/
def clearedWidgetState : WidgetState := WidgetState.mk 0 false

/-- `renderWidgetUI(widget, violations)` (source lines 482-506), as a pure
function of the widget's current cached state.  Returns the state after the
call together with the DOM writes performed:

* if `lastViolationCount === violationCount && hasUI === (violationCount > 0)`
  the call returns without touching the DOM or the cache;
* if the new count is zero it behaves as `clearWidgetUI`;
* otherwise it clears, adds the outline class, appends a badge and a popup,
  and wires the popup's interactions (which registers an outside-click
  listener on `document`). -/
def renderWidgetUI (w : Nat) (st : WidgetState) (violations : List AxeViolation) :
    WidgetState × List DomWrite :=
  let violationCount := violations.length
  if st.lastViolationCount = (violationCount : Int) ∧ st.hasUI = decide (0 < violationCount) then
    (st, [])
  else if violationCount = 0 then
    (clearedWidgetState, clearWidgetUIWrites w)
  else
    (WidgetState.mk (violationCount : Int) true,
      clearWidgetUIWrites w ++
        [DomWrite.addOutlineClass w, DomWrite.appendBadge w violationCount,
         DomWrite.appendPopup w violations, DomWrite.registerOutsideClick w])

/-! ## Violation mapper

Source lines 654-663: for each widget, the violations attributed to it are
`violations.filter(v => v.nodes.some(node => { const element = node.target ?
document.querySelector(node.target.join(' ')) : null; return element !== null
&& widget.contains(element); }))`. -/

/-- `node.target.join(' ')`: the descendant-selector string built from a
target path. -/
def joinWithSpace : List String → String
  | [] => ""
  | [s] => s
  | s :: rest => s ++ " " ++ joinWithSpace rest

/-- Resolve an affected-node descriptor:
`node.target ? document.querySelector(node.target.join(' ')) : null`. -/
def resolveNode (d : Doc) (n : AxeNode) : Option Elem :=
  match n.target with
  | some t => d.query (joinWithSpace t)
  | none => none

/-- The `some`-predicate of the filter: the violation has an affected node
whose descriptor resolves to an element contained in the widget. -/
def violationTouchesWidget (d : Doc) (widget : Elem) (v : AxeViolation) : Bool :=
  v.nodes.any fun n =>
    match resolveNode d n with
    | some e => containsElem widget e
    | none => false

/-- The violations attributed to a widget (the filter of lines 655-660). -/
def widgetViolations (d : Doc) (widget : Elem) (violations : List AxeViolation) :
    List AxeViolation :=
  violations.filter (fun v => violationTouchesWidget d widget v)

/-! ## The audit function `recheckAll`

`recheckAll` is `async`; its externally visible behaviour is modelled as a
list of events in order, plus the final widget cache.  A result of
`Except.error` models the promise rejecting (an exception escaping to the
caller). -/

/-- An externally visible event of a `recheckAll` run. -/
inductive REv where
  /-- `injectCSS` appended the stylesheet (only when it was absent). -/
  | styleInject
  /-- `clearWidgetUI(widget)` was called on the widget. -/
  | clearUI (w : Nat)
  /-- `axe.run(document, options)` was invoked. -/
  | engineInvoke
  /-- The 50 ms retry backoff (`setTimeout(resolve, 50)`). -/
  | sleep (ms : Nat)
  /-- `renderWidgetUI(widget, violations)` was called on the widget. -/
  | renderW (w : Nat) (violations : List AxeViolation)
deriving DecidableEq, Repr

/-- The engine boundary: attempt number and options in, either a violation
list or a thrown error out.  The options argument is exactly what
`recheckAll` passes to `axe.run`. -/
def Engine : Type := Nat → AxeRunOptions → Except String (List AxeViolation)

/-- `widgets.forEach(widget => this.clearWidgetUI(widget))` (source line
620): clear each widget's UI and store the cleared state. -/
def clearAllWidgets : List Elem → StateMap → StateMap × List REv
  | [], states => (states, [])
  | w :: rest, states =>
    let out := clearAllWidgets rest (setState states w.id clearedWidgetState)
    (out.1, REv.clearUI w.id :: out.2)

/-- The success branch of the retry loop (source lines 654-663): partition
the violations per widget and render each widget.  The state returned by
`renderWidgetUI` is stored back into the cache (in its no-op branch it
equals the previous state). -/
def renderAllWidgets (d : Doc) (violations : List AxeViolation) :
    List Elem → StateMap → StateMap × List REv
  | [], states => (states, [])
  | w :: rest, states =>
    let wvs := widgetViolations d w violations
    let st := (renderWidgetUI w.id (lookupState states w.id) wvs).1
    let out := renderAllWidgets d violations rest (setState states w.id st)
    (out.1, REv.renderW w.id wvs :: out.2)

/-- The exhausted-retries branch (source line 672):
`widgets.forEach(widget => this.renderWidgetUI(widget, []))`. -/
def renderAllEmpty : List Elem → StateMap → StateMap × List REv
  | [], states => (states, [])
  | w :: rest, states =>
    let st := (renderWidgetUI w.id (lookupState states w.id) []).1
    let out := renderAllEmpty rest (setState states w.id st)
    (out.1, REv.renderW w.id [] :: out.2)

/-- The retry loop of `recheckAll` (source lines 622-677):
`while (attempts <= maxRetries && !success) { try { ... } catch { attempts++;
if (attempts > maxRetries) renderAllEmpty else sleep(50) } }`.

The loop is translated with a fuel argument: it is entered with
`attempts = 0` and `fuel = maxRetries + 1`, and `attempts + fuel` is kept
equal to `maxRetries + 1`, so `fuel = 0` coincides with the loop condition
`attempts <= maxRetries` turning false (the `success` flag is represented by
returning instead of recursing). -/
def recheckLoop (c : Config) (d : Doc) (eng : Engine) (widgets : List Elem) :
    Nat → Nat → StateMap → StateMap × List REv
  | _, 0, states => (states, [])
  | attempts, fuel + 1, states =>
    match eng attempts (buildAxeOptions c) with
    | Except.ok violations =>
      let out := renderAllWidgets d violations widgets states
      (out.1, REv.engineInvoke :: out.2)
    | Except.error _ =>
      if c.maxRetries < attempts + 1 then
        let out := renderAllEmpty widgets states
        (out.1, REv.engineInvoke :: out.2)
      else
        let out := recheckLoop c d eng widgets (attempts + 1) fuel states
        (out.1, REv.engineInvoke :: REv.sleep 50 :: out.2)

/-- `recheckAll` (source lines 614-678): inject the stylesheet if absent,
resolve the widget set (a thrown `SyntaxError` propagates and rejects the
promise), return at once when no widgets match, otherwise clear every
matched widget's UI and run the audit loop.  `hasStyle` is whether the
`wa11y-style` element is already present. -/
def recheckAllModel (c : Config) (d : Doc) (eng : Engine) (states : StateMap)
    (hasStyle : Bool) : Except String (StateMap × List REv) :=
  let styleEvs := if hasStyle then ([] : List REv) else [REv.styleInject]
  match getAllWidgetsModel d c.widgetSelectors with
  | Except.error e => Except.error e
  | Except.ok widgets =>
    if widgets.isEmpty then Except.ok (states, styleEvs)
    else
      let cleared := clearAllWidgets widgets states
      let looped := recheckLoop c d eng widgets 0 (c.maxRetries + 1) cleared.1
      Except.ok (looped.1, styleEvs ++ cleared.2 ++ looped.2)

/-- `clearAll` (source lines 703-705):
`this.getAllWidgets().forEach(widget => this.clearWidgetUI(widget))`.  The
selector query's `SyntaxError` propagates synchronously. -/
def clearAllModel (d : Doc) (selectors : List String) (states : StateMap) :
    Except String (StateMap × List REv) :=
  match getAllWidgetsModel d selectors with
  | Except.error e => Except.error e
  | Except.ok widgets => Except.ok (clearAllWidgets widgets states)

/-- `getWidgetStates` (source lines 725-730): the matched widgets paired
with their cached (or default) states.  The selector query's `SyntaxError`
propagates synchronously. -/
def getWidgetStatesModel (d : Doc) (selectors : List String) (states : StateMap) :
    Except String (List (Nat × WidgetState)) :=
  match getAllWidgetsModel d selectors with
  | Except.error e => Except.error e
  | Except.ok widgets => Except.ok (widgets.map (fun w => (w.id, lookupState states w.id)))

/-- Number of engine invocations in an event list. -/
def countInvokes (evs : List REv) : Nat :=
  evs.countP (fun e =>
    match e with
    | REv.engineInvoke => true
    | _ => false)

/-- Whether an event is a per-widget UI action (a clear or a render). -/
def isWidgetUIEvent : REv → Bool
  | REv.clearUI _ => true
  | REv.renderW _ _ => true
  | _ => false

/-- Whether an event is a `clearWidgetUI` call. -/
def isClearEvent : REv → Bool
  | REv.clearUI _ => true
  | _ => false

/-! ## Debounce scheduling (`debounceRecheck`, source lines 683-688)

The host timer facility is modelled explicitly: `setTimeout` allocates a
fresh timer id and adds it to the active set, `clearTimeout` removes an id
(a no-op for an id that already fired).  `recheckTimeout` is the validator's
single stored timer handle. -/

/-- The host's timer table: the next fresh id and the ids of timers that are
scheduled and have neither fired nor been cancelled. -/
structure TimerSys where
  nextId : Nat
  active : List Nat
deriving DecidableEq, Repr

/-- `setTimeout(...)`: allocate a fresh timer id. -/
def setTimeoutModel (s : TimerSys) : TimerSys × Nat :=
  (TimerSys.mk (s.nextId + 1) (s.active ++ [s.nextId]), s.nextId)

/-- `clearTimeout(id)`: cancel the timer if still pending. -/
def clearTimeoutModel (s : TimerSys) (id : Nat) : TimerSys :=
  TimerSys.mk s.nextId (s.active.erase id)

/-- The validator's debounce state: the timer table plus the stored
`recheckTimeout` handle. -/
structure DebouncerState where
  sys : TimerSys
  recheckTimeout : Option Nat
deriving DecidableEq, Repr

/-- Initial state: no timer scheduled, no handle stored. -/
def initDebouncer : DebouncerState := DebouncerState.mk (TimerSys.mk 0 []) none

/-- `debounceRecheck` (source lines 683-688): clear the previously stored
timer (when one exists), then schedule a new one and store its handle. -/
def debounceRecheckModel (st : DebouncerState) : DebouncerState :=
  let sys1 :=
    match st.recheckTimeout with
    | some id => clearTimeoutModel st.sys id
    | none => st.sys
  let p := setTimeoutModel sys1
  DebouncerState.mk p.1 (some p.2)

/-- A scheduled timer firing: the host removes it from the active set and
runs its callback (`recheckAll`); the stored handle is not reset by the
source, so it may go stale. -/
def fireModel (st : DebouncerState) (id : Nat) : DebouncerState :=
  DebouncerState.mk (clearTimeoutModel st.sys id) st.recheckTimeout

/-- Events touching the debouncer: a `debounceRecheck` call, or a timer
firing. -/
inductive DebounceOp where
  | schedule
  | fire (id : Nat)
deriving DecidableEq, Repr

/-- One debouncer event. -/
def debounceStep (st : DebouncerState) : DebounceOp → DebouncerState
  | DebounceOp.schedule => debounceRecheckModel st
  | DebounceOp.fire id => fireModel st id

/-- Timing semantics of the debounce coalescing, modelled from
`setTimeout`/`clearTimeout`: given the call times of successive
`debounceRecheck` invocations (in order), the timer scheduled at time `t`
fires iff no further call arrives strictly before `t + delay` (a later call
within the window cancels it; a call at or after `t + delay` arrives after
it already fired).  Returns how many scheduled audits actually run. -/
def firedAudits (delay : Nat) : List Nat → Nat
  | [] => 0
  | [_] => 1
  | t1 :: t2 :: rest => (if t2 < t1 + delay then 0 else 1) + firedAudits delay (t2 :: rest)

/-! ## `destroy` (source lines 736-755)

`destroy` runs: `stopWatching()`; `clearTimeout(this.recheckTimeout)`;
`this.clearAll()`; then for every element still matching the popup class in
the document, removes its stored outside-click listener from `document`;
finally removes the injected stylesheet.  The model keeps the pieces of
validator-owned state this touches.  A popup element records which widget it
is a direct child of and the outside-click handler stored on it. -/

/-- A popup element: direct child of widget `parent`, with its stored
`_outsideClickHandler` (a handler id registered on `document`). -/
structure PopupEl where
  parent : Nat
  outsideClickHandler : Option Nat
deriving DecidableEq, Repr

/-- The validator-owned state that `destroy` touches. -/
structure DestroyState where
  observerActive : Bool
  recheckTimeout : Option Nat
  activeTimers : List Nat
  outlined : List Nat
  popups : List PopupEl
  docClickListeners : List Nat
  styleInjected : Bool
  widgetStates : List (Nat × WidgetState)
deriving DecidableEq, Repr

/-- `clearWidgetUI(widget)` at the document level (source lines 476-480):
drop the outline class and the direct-child badge/popup elements of the
widget, and store the cleared state.  The removed popups' outside-click
listeners are NOT removed from `document` here. -/
def clearWidgetUIDestroy (w : Nat) (s : DestroyState) : DestroyState :=
  DestroyState.mk s.observerActive s.recheckTimeout s.activeTimers
    (s.outlined.filter (fun x => x != w))
    (s.popups.filter (fun p => p.parent != w))
    s.docClickListeners s.styleInjected
    (setState s.widgetStates w clearedWidgetState)

/-- `destroy()` (source lines 736-755), given the widget set `clearAll`
resolves.  Steps, in source order: stop the observer; cancel the stored
timer; clear every matched widget's UI; remove the outside-click listener of
every popup element still found in the document; remove the stylesheet. -/
def destroyModel (widgets : List Nat) (s : DestroyState) : DestroyState :=
  let s1 := DestroyState.mk false s.recheckTimeout s.activeTimers s.outlined s.popups
    s.docClickListeners s.styleInjected s.widgetStates
  let s2 :=
    match s1.recheckTimeout with
    | some id => DestroyState.mk s1.observerActive s1.recheckTimeout
        (s1.activeTimers.erase id) s1.outlined s1.popups s1.docClickListeners
        s1.styleInjected s1.widgetStates
    | none => s1
  let s3 := widgets.foldl (fun acc w => clearWidgetUIDestroy w acc) s2
  let remaining := s3.popups.foldl
    (fun ls p =>
      match p.outsideClickHandler with
      | some h => ls.erase h
      | none => ls)
    s3.docClickListeners
  DestroyState.mk s3.observerActive s3.recheckTimeout s3.activeTimers s3.outlined
    s3.popups remaining false s3.widgetStates

/-! ## `getConfig` and reference sharing (source lines 732-734)

`getConfig` returns `{ ...this.config }`: a fresh object whose field values
are copied, including the *reference* to the `widgetSelectors` array.  To
express aliasing, arrays live in a heap indexed by reference, and the config
object holds a reference. -/

/-- A heap of string arrays, indexed by reference id. -/
def ArrayHeap : Type := Nat → List String

/-- The configuration object as stored on the validator, holding a
*reference* to its `widgetSelectors` array (other fields are plain values;
one representative is kept). -/
structure ConfigObj where
  widgetSelectorsRef : Nat
  maxRetries : Nat
deriving DecidableEq, Repr

/-- `getConfig(): return { ...this.config }` — a shallow spread: every field
value is copied, so the new object holds the same array reference. -/
def getConfigJS (c : ConfigObj) : ConfigObj :=
  ConfigObj.mk c.widgetSelectorsRef c.maxRetries

/-- `arr.push(s)` on the array behind reference `r`. -/
def heapPush (h : ArrayHeap) (r : Nat) (s : String) : ArrayHeap :=
  fun r' => if r' = r then h r ++ [s] else h r'

/-- What the validator reads as its selector list (`this.config.widgetSelectors`). -/
def readSelectors (h : ArrayHeap) (c : ConfigObj) : List String :=
  h c.widgetSelectorsRef

/-! ## Widget-state trajectories (for the stored-state invariant)

The only writers of the widget cache are `clearWidgetUI` and
`renderWidgetUI`; a trajectory is a sequence of such operations applied to
the default state. -/

/-- A widget-cache writing operation. -/
inductive WidgetOp where
  | clear
  | render (violations : List AxeViolation)

/-- Apply one operation to a widget's state (the state `clearWidgetUI`
stores, resp. the state after a `renderWidgetUI` call). -/
def applyWidgetOp (st : WidgetState) : WidgetOp → WidgetState
  | WidgetOp.clear => clearedWidgetState
  | WidgetOp.render vs => (renderWidgetUI 0 st vs).1

/-! ## Concrete fixtures (used by witnesses and counterexamples) -/

/-- A `.card-video` widget element. -/
def eCard : Elem := Elem.mk 1 [] [".card-video"]

/-- An image element inside widget `eCard` (ancestor chain `[1]`). -/
def eImgA : Elem := Elem.mk 10 [1] []

/-- A second widget element. -/
def eWidgetB : Elem := Elem.mk 2 [] [".card-video"]

/-- An element inside widget `eWidgetB`. -/
def eImgB : Elem := Elem.mk 20 [2] []

/-- A document with the two widgets and their inner elements; `#a` resolves
to the element in the first widget, `#b` to the one in the second. -/
def dFix : Doc :=
  Doc.mk [eCard, eWidgetB, eImgA, eImgB]
    (fun s => if s = "#a" then some eImgA else if s = "#b" then some eImgB else none)

/-- The default configuration of the legacy instance:
`widgetSelectors: ['.card-video']`, merged defaults. -/
def cfgCard : Config := Config.mk [".card-video"] (some []) none 300 true 1 false

/-- A configuration whose selector list has been emptied (reachable via
`removeSelectors`). -/
def cfgEmptySel : Config := Config.mk [] (some []) none 300 true 1 false

/-- An engine that always throws. -/
def engFail : Engine := fun _ _ => Except.error "engine unavailable"

/-- An engine that always returns no violations. -/
def engOk : Engine := fun _ _ => Except.ok []

/-- A violation whose only affected node resolves into widget `eCard`. -/
def vInA : AxeViolation :=
  AxeViolation.mk "image-alt" (some "critical") "Images must have alternate text"
    "Images must have alternate text" [AxeNode.mk "<img>" (some ["#a"])]

/-- A violation with one affected node in each of the two widgets. -/
def vBoth : AxeViolation :=
  AxeViolation.mk "link-name" (some "serious") "Links must have discernible text"
    "Links must have discernible text"
    [AxeNode.mk "<img>" (some ["#a"]), AxeNode.mk "<img>" (some ["#b"])]

/-- A violation whose affected node resolves to no live element. -/
def vUnresolved : AxeViolation :=
  AxeViolation.mk "color-contrast" (some "serious") "Contrast" "Contrast"
    [AxeNode.mk "<p>" (some ["#gone"])]

/-- A destroy-time state: one matched widget (id 1) currently showing UI
whose popup stored outside-click handler `7` (registered on `document`), the
observer running, a pending debounce timer `3`, and the stylesheet present. -/
def sDestroy : DestroyState :=
  DestroyState.mk true (some 3) [3] [1] [PopupEl.mk 1 (some 7)] [7] true
    [(1, WidgetState.mk 2 true)]

/-- A destroy-time state whose only popup sits on element 5, which no longer
matches any configured selector (stale UI), with handler `9`. -/
def sDestroyStale : DestroyState :=
  DestroyState.mk true none [] [] [PopupEl.mk 5 (some 9)] [9] true []

/-- The heap for the `getConfig` fixtures: reference 0 holds the selector
array. -/
def hFix : ArrayHeap := fun r => if r = 0 then [".card-video"] else []

/-- The validator's config object in the `getConfig` fixtures. -/
def cfgObjFix : ConfigObj := ConfigObj.mk 0 1

/-! ## Helper lemmas -/

/-- Looking up after a store: the stored value at the key, unchanged
elsewhere. -/
theorem lookupState_setState (m : StateMap) (k x : Nat) (v : WidgetState) :
    lookupState (setState m k v) x = if k = x then v else lookupState m x := by
  induction m with
  | nil => by_cases h : k = x <;> simp [setState, lookupState, h]
  | cons p rest ih =>
    by_cases hpk : p.1 = k <;> by_cases hkx : k = x <;> by_cases hpx : p.1 = x <;>
      simp_all [setState, lookupState]

/-- The events of clearing a widget list do not depend on the cache. -/
theorem clearAllWidgets_snd (ws : List Elem) :
    ∀ states : StateMap, (clearAllWidgets ws states).2 = ws.map (fun w => REv.clearUI w.id) := by
  induction ws with
  | nil => intro states; rfl
  | cons w rest ih => intro states; simp [clearAllWidgets, ih]

/-- After clearing a widget list, each cleared widget reads the cleared
state and other keys are untouched. -/
theorem clearAllWidgets_fst_lookup (ws : List Elem) :
    ∀ (states : StateMap) (x : Nat),
      lookupState (clearAllWidgets ws states).1 x =
        if x ∈ ws.map Elem.id then clearedWidgetState else lookupState states x := by
  induction ws with
  | nil => intro states x; simp [clearAllWidgets]
  | cons w rest ih =>
    intro states x
    show lookupState (clearAllWidgets rest (setState states w.id clearedWidgetState)).1 x = _
    rw [ih, lookupState_setState]
    by_cases hw : x = w.id <;> by_cases hr : x ∈ rest.map Elem.id <;>
      simp_all [List.mem_cons]
    have h1 : ¬∃ a ∈ rest, a.id = x := by simpa using hr
    rw [if_neg h1, if_neg h1]
    exact if_neg (fun h => hw h.symm)

/-- The events of the success-branch render pass depend only on the
violations, not on the cache. -/
theorem renderAllWidgets_snd (d : Doc) (violations : List AxeViolation) (ws : List Elem) :
    ∀ states : StateMap,
      (renderAllWidgets d violations ws states).2 =
        ws.map (fun w => REv.renderW w.id (widgetViolations d w violations)) := by
  induction ws with
  | nil => intro states; rfl
  | cons w rest ih => intro states; simp [renderAllWidgets, ih]

/-- The events of the exhausted-retries render pass. -/
theorem renderAllEmpty_snd (ws : List Elem) :
    ∀ states : StateMap,
      (renderAllEmpty ws states).2 = ws.map (fun w => REv.renderW w.id []) := by
  induction ws with
  | nil => intro states; rfl
  | cons w rest ih => intro states; simp [renderAllEmpty, ih]

/-- Rendering an empty violation list over widgets that already read the
cleared state is a cache no-op: every lookup is unchanged. -/
theorem renderAllEmpty_fst_lookup (ws : List Elem) :
    ∀ states : StateMap,
      (∀ w ∈ ws, lookupState states w.id = clearedWidgetState) →
      ∀ x, lookupState (renderAllEmpty ws states).1 x = lookupState states x := by
  induction ws with
  | nil => intro states _ x; rfl
  | cons w rest ih =>
    intro states h x
    have hw : lookupState states w.id = clearedWidgetState := h w (List.mem_cons_self w rest)
    have hrender : (renderWidgetUI w.id clearedWidgetState []).1 = clearedWidgetState := rfl
    show lookupState
      (renderAllEmpty rest
        (setState states w.id (renderWidgetUI w.id (lookupState states w.id) []).1)).1 x = _
    rw [hw, hrender]
    have hset : ∀ y, lookupState (setState states w.id clearedWidgetState) y =
        lookupState states y := by
      intro y
      rw [lookupState_setState]
      by_cases hy : w.id = y
      · rw [if_pos hy, ← hy, hw]
      · rw [if_neg hy]
    rw [ih (setState states w.id clearedWidgetState)
      (fun w' hw' => by rw [hset]; exact h w' (List.mem_cons_of_mem w hw')) x, hset]

/-- When every engine invocation throws, the retry loop entered with
`attempts + f = maxRetries` performs `f + 1` invocations separated by 50 ms
backoffs and ends by rendering every widget with no violations. -/
theorem recheckLoop_allfail (c : Config) (d : Doc) (eng : Engine) (widgets : List Elem)
    (hfail : ∀ n opts, ∃ msg, eng n opts = Except.error msg) :
    ∀ (f attempts : Nat) (states : StateMap), attempts + f = c.maxRetries →
      recheckLoop c d eng widgets attempts (f + 1) states =
        ((renderAllEmpty widgets states).1,
          (List.replicate f [REv.engineInvoke, REv.sleep 50]).flatten ++
            REv.engineInvoke :: (renderAllEmpty widgets states).2) := by
  intro f
  induction f with
  | zero =>
    intro attempts states hsum
    obtain ⟨msg, hmsg⟩ := hfail attempts (buildAxeOptions c)
    simp only [recheckLoop, hmsg]
    rw [if_pos (by omega)]
    simp
  | succ g ih =>
    intro attempts states hsum
    obtain ⟨msg, hmsg⟩ := hfail attempts (buildAxeOptions c)
    have hstep : recheckLoop c d eng widgets attempts (g + 1 + 1) states =
        ((recheckLoop c d eng widgets (attempts + 1) (g + 1) states).1,
          REv.engineInvoke :: REv.sleep 50 ::
            (recheckLoop c d eng widgets (attempts + 1) (g + 1) states).2) := by
      simp only [recheckLoop, hmsg]
      rw [if_neg (by omega)]
    rw [hstep, ih (attempts + 1) states (by omega)]
    simp [List.replicate_succ]

/-- The retry loop never emits a `clearWidgetUI` event: clearing happens
only in the prelude of `recheckAll`. -/
theorem recheckLoop_no_clear (c : Config) (d : Doc) (eng : Engine) (widgets : List Elem) :
    ∀ (fuel attempts : Nat) (states : StateMap),
      ∀ e ∈ (recheckLoop c d eng widgets attempts fuel states).2, isClearEvent e = false := by
  intro fuel
  induction fuel with
  | zero => intro attempts states e he; simp [recheckLoop] at he
  | succ g ih =>
    intro attempts states e he
    simp only [recheckLoop] at he
    cases heng : eng attempts (buildAxeOptions c) with
    | ok violations =>
      rw [heng] at he
      simp only [renderAllWidgets_snd] at he
      rcases List.mem_cons.mp he with h | h
      · rw [h]; rfl
      · obtain ⟨w, _, hw⟩ := List.mem_map.mp h
        rw [← hw]; rfl
    | error msg =>
      rw [heng] at he
      by_cases hatt : c.maxRetries < attempts + 1
      · rw [if_pos hatt] at he
        simp only [renderAllEmpty_snd] at he
        rcases List.mem_cons.mp he with h | h
        · rw [h]; rfl
        · obtain ⟨w, _, hw⟩ := List.mem_map.mp h
          rw [← hw]; rfl
      · rw [if_neg hatt] at he
        rcases List.mem_cons.mp he with h | h
        · rw [h]; rfl
        · rcases List.mem_cons.mp h with h2 | h2
          · rw [h2]; rfl
          · exact ih (attempts + 1) states e h2

/-- `countInvokes` distributes over append. -/
theorem countInvokes_append (a b : List REv) :
    countInvokes (a ++ b) = countInvokes a + countInvokes b :=
  List.countP_append _ _ _

/-- Clearing events contain no engine invocation. -/
theorem countInvokes_map_clear (ws : List Elem) :
    countInvokes (ws.map (fun w => REv.clearUI w.id)) = 0 := by
  induction ws with
  | nil => rfl
  | cons w rest ih => simp [countInvokes, List.countP_cons, ih]

/-- Render events contain no engine invocation. -/
theorem countInvokes_map_render (ws : List Elem) :
    countInvokes (ws.map (fun w => REv.renderW w.id [])) = 0 := by
  induction ws with
  | nil => rfl
  | cons w rest ih => simp [countInvokes, List.countP_cons, ih]

/-- Each retry block contributes exactly one engine invocation. -/
theorem countInvokes_replicate (n : Nat) :
    countInvokes ((List.replicate n [REv.engineInvoke, REv.sleep 50]).flatten) = n := by
  induction n with
  | zero => rfl
  | succ m ih =>
    rw [List.replicate_succ, List.flatten_cons, countInvokes_append, ih]
    show 1 + m = m + 1
    omega

/-! ## Claim theorems -/

/-- Claim C1: for every `recheckAll` call with at least one matched widget,
if every engine invocation fails then the engine is invoked at most
`maxRetries + 1` times (exactly that many, with a fixed 50 ms backoff
between consecutive attempts, as the explicit event trace shows), after
which every matched widget is rendered with an empty violation list — its
cached state ends as zero violations with no UI — and no exception escapes
`recheckAll` (the result is `Except.ok`). -/
theorem recheckAll_engine_failure_bounded
    (c : Config) (d : Doc) (eng : Engine) (states : StateMap) (hasStyle : Bool)
    (ws : List Elem)
    (hres : getAllWidgetsModel d c.widgetSelectors = Except.ok ws)
    (hne : ws ≠ [])
    (hfail : ∀ n opts, ∃ msg, eng n opts = Except.error msg) :
    ∃ (finalStates : StateMap) (evs : List REv),
      recheckAllModel c d eng states hasStyle = Except.ok (finalStates, evs) ∧
      countInvokes evs = c.maxRetries + 1 ∧
      countInvokes evs ≤ c.maxRetries + 1 ∧
      evs = (if hasStyle then [] else [REv.styleInject]) ++
        ws.map (fun w => REv.clearUI w.id) ++
        ((List.replicate c.maxRetries [REv.engineInvoke, REv.sleep 50]).flatten ++
          REv.engineInvoke :: ws.map (fun w => REv.renderW w.id [])) ∧
      (∀ w ∈ ws, lookupState finalStates w.id = clearedWidgetState) := by
  have hcl : ∀ w ∈ ws, lookupState (clearAllWidgets ws states).1 w.id = clearedWidgetState := by
    intro w hw
    rw [clearAllWidgets_fst_lookup]
    exact if_pos (List.mem_map_of_mem Elem.id hw)
  have hloop := recheckLoop_allfail c d eng ws hfail c.maxRetries 0 (clearAllWidgets ws states).1
    (by omega)
  have hrend := renderAllEmpty_fst_lookup ws (clearAllWidgets ws states).1 hcl
  have hne2 : ws.isEmpty = false := by
    cases ws with
    | nil => exact absurd rfl hne
    | cons a l => rfl
  refine ⟨(renderAllEmpty ws (clearAllWidgets ws states).1).1,
    (if hasStyle then [] else [REv.styleInject]) ++
      ws.map (fun w => REv.clearUI w.id) ++
      ((List.replicate c.maxRetries [REv.engineInvoke, REv.sleep 50]).flatten ++
        REv.engineInvoke :: ws.map (fun w => REv.renderW w.id [])), ?_, ?_, ?_, rfl, ?_⟩
  · simp only [recheckAllModel, hres, hne2, Bool.false_eq_true, if_false]
    rw [hloop, clearAllWidgets_snd, renderAllEmpty_snd]
  · rw [countInvokes_append, countInvokes_append, countInvokes_append,
      countInvokes_map_clear, countInvokes_replicate]
    have h1 : countInvokes (if hasStyle then [] else [REv.styleInject]) = 0 := by
      cases hasStyle <;> rfl
    have h2 : countInvokes (REv.engineInvoke :: ws.map (fun w => REv.renderW w.id [])) =
        1 + countInvokes (ws.map (fun w => REv.renderW w.id [])) := by
      simp [countInvokes, List.countP_cons]
      omega
    rw [h1, h2, countInvokes_map_render]
    omega
  · rw [countInvokes_append, countInvokes_append, countInvokes_append,
      countInvokes_map_clear, countInvokes_replicate]
    have h1 : countInvokes (if hasStyle then [] else [REv.styleInject]) = 0 := by
      cases hasStyle <;> rfl
    have h2 : countInvokes (REv.engineInvoke :: ws.map (fun w => REv.renderW w.id [])) =
        1 + countInvokes (ws.map (fun w => REv.renderW w.id [])) := by
      simp [countInvokes, List.countP_cons]
      omega
    rw [h1, h2, countInvokes_map_render]
    omega
  · intro w hw
    rw [hrend w.id]
    exact hcl w hw

/-- Witness for the claim-C1 theorem at the legacy `.card-video` fixture
with a maximally failing engine: two widgets, `maxRetries = 1`, trace
`clear, clear, invoke, sleep 50, invoke, render [], render []`. -/
theorem recheckAll_engine_failure_bounded_witness :
    ∃ (finalStates : StateMap) (evs : List REv),
      recheckAllModel cfgCard dFix engFail [] true = Except.ok (finalStates, evs) ∧
      countInvokes evs = cfgCard.maxRetries + 1 ∧
      countInvokes evs ≤ cfgCard.maxRetries + 1 ∧
      evs = (if (true : Bool) then [] else [REv.styleInject]) ++
        [eCard, eWidgetB].map (fun w => REv.clearUI w.id) ++
        ((List.replicate cfgCard.maxRetries [REv.engineInvoke, REv.sleep 50]).flatten ++
          REv.engineInvoke :: [eCard, eWidgetB].map (fun w => REv.renderW w.id [])) ∧
      (∀ w ∈ [eCard, eWidgetB], lookupState finalStates w.id = clearedWidgetState) :=
  recheckAll_engine_failure_bounded cfgCard dFix engFail [] true [eCard, eWidgetB] rfl
    (by simp) (fun n opts => ⟨"engine unavailable", rfl⟩)

/-- Claim C2: the options passed to the engine carry
`runOnly = {type: rule, values: axeRules}` exactly when `axeRules` is
present and non-empty (taking precedence over `axeTags`), carry
`runOnly = {type: tag, values: axeTags}` exactly when `axeRules` is empty
or absent and `axeTags` is present and non-empty, and carry no `runOnly`
restriction when both are empty or absent.  The three implications cover
all configurations, so each shape occurs exactly under its condition. -/
theorem buildAxeOptions_runOnly_selection (c : Config) :
    (0 < (c.axeRules.getD []).length →
      (buildAxeOptions c).runOnly =
        some (RunOnly.mk RunOnlyType.rule (c.axeRules.getD []))) ∧
    ((c.axeRules.getD []).length = 0 → 0 < (c.axeTags.getD []).length →
      (buildAxeOptions c).runOnly =
        some (RunOnly.mk RunOnlyType.tag (c.axeTags.getD []))) ∧
    ((c.axeRules.getD []).length = 0 → (c.axeTags.getD []).length = 0 →
      (buildAxeOptions c).runOnly = none) := by
  unfold buildAxeOptions
  refine ⟨fun h1 => ?_, fun h1 h2 => ?_, fun h1 h2 => ?_⟩
  · rw [if_pos h1]
  · rw [if_neg (by omega), if_pos h2]
  · rw [if_neg (by omega), if_neg (by omega)]

/-- Witness for the claim-C2 theorem: with
`axeRules = ['color-contrast']` and `axeTags = ['wcag2aa']` both set, the
engine options carry the rule restriction exclusively. -/
theorem buildAxeOptions_runOnly_selection_witness :
    (buildAxeOptions (Config.mk [".card-video"] (some ["color-contrast"])
      (some ["wcag2aa"]) 300 true 1 false)).runOnly =
      some (RunOnly.mk RunOnlyType.rule ["color-contrast"]) :=
  (buildAxeOptions_runOnly_selection _).1 (by decide)

/-- Claim C4: `renderWidgetUI` performs no DOM writes exactly when the
cached `lastViolationCount` equals the new list's length and the cached
`hasUI` flag equals its non-emptiness; consequently rendering twice in a
row with violation lists of equal length performs no DOM writes on the
second call, even when the lists differ in content. -/
theorem renderWidgetUI_noop_condition (w : Nat) (st : WidgetState)
    (vs vs2 : List AxeViolation) :
    ((renderWidgetUI w st vs).2 = [] ↔
      st.lastViolationCount = (vs.length : Int) ∧ st.hasUI = decide (0 < vs.length)) ∧
    (vs2.length = vs.length → (renderWidgetUI w (renderWidgetUI w st vs).1 vs2).2 = []) := by
  constructor
  · constructor
    · intro h
      by_cases hc : st.lastViolationCount = (vs.length : Int) ∧
          st.hasUI = decide (0 < vs.length)
      · exact hc
      · exfalso
        simp only [renderWidgetUI] at h
        rw [if_neg hc] at h
        by_cases hz : vs.length = 0
        · rw [if_pos hz] at h
          simp [clearWidgetUIWrites] at h
        · rw [if_neg hz] at h
          simp [clearWidgetUIWrites] at h
    · intro hc
      simp only [renderWidgetUI]
      rw [if_pos hc]
  · intro hlen
    by_cases hc : st.lastViolationCount = (vs.length : Int) ∧
        st.hasUI = decide (0 < vs.length)
    · have h1 : (renderWidgetUI w st vs).1 = st := by
        simp only [renderWidgetUI]
        rw [if_pos hc]
      rw [h1]
      simp only [renderWidgetUI]
      rw [if_pos (by rw [hlen]; exact hc)]
    · by_cases hz : vs.length = 0
      · have h1 : (renderWidgetUI w st vs).1 = clearedWidgetState := by
          simp only [renderWidgetUI]
          rw [if_neg hc, if_pos hz]
        rw [h1]
        simp only [renderWidgetUI]
        rw [if_pos ⟨by rw [hlen, hz]; rfl, by rw [hlen, hz]; rfl⟩]
      · have h1 : (renderWidgetUI w st vs).1 = WidgetState.mk (vs.length : Int) true := by
          simp only [renderWidgetUI]
          rw [if_neg hc, if_neg hz]
        rw [h1]
        simp only [renderWidgetUI]
        rw [if_pos ⟨by rw [hlen],
          (decide_eq_true (Nat.pos_of_ne_zero (by rw [hlen]; exact hz))).symm⟩]

/-- Witness for the claim-C4 theorem: a first render of two violations on a
fresh widget followed by a render of two *different* violations performs no
DOM writes on the second call. -/
theorem renderWidgetUI_noop_condition_witness :
    (renderWidgetUI 1 (renderWidgetUI 1 defaultWidgetState [vInA, vBoth]).1
      [vBoth, vUnresolved]).2 = [] :=
  (renderWidgetUI_noop_condition 1 defaultWidgetState [vInA, vBoth]
    [vBoth, vUnresolved]).2 rfl

/-- Claim C3: a violation is attributed to a widget iff at least one of its
affected-node descriptors has a target that resolves via DOM lookup to a
live element contained in the widget's subtree; descriptors without a
target or resolving to nothing contribute nothing (they can never satisfy
the existential); containment includes the widget element itself; and a
violation resolving into two widgets is attributed to both. -/
theorem widgetViolations_attribution (d : Doc) (wA wB : Elem)
    (vs : List AxeViolation) (v : AxeViolation)
    (hq : ∀ (s : String) (e : Elem), d.query s = some e → d.lives e = true) :
    (v ∈ widgetViolations d wA vs ↔
      v ∈ vs ∧ ∃ n ∈ v.nodes, ∃ t, n.target = some t ∧
        ∃ e, d.query (joinWithSpace t) = some e ∧ d.lives e = true ∧
          containsElem wA e = true) ∧
    containsElem wA wA = true ∧
    (v ∈ vs → violationTouchesWidget d wA v = true →
      violationTouchesWidget d wB v = true →
      v ∈ widgetViolations d wA vs ∧ v ∈ widgetViolations d wB vs) := by
  refine ⟨?_, ?_, ?_⟩
  · rw [widgetViolations, List.mem_filter]
    constructor
    · rintro ⟨hv, htouch⟩
      refine ⟨hv, ?_⟩
      rw [violationTouchesWidget, List.any_eq_true] at htouch
      obtain ⟨n, hn, hpred⟩ := htouch
      refine ⟨n, hn, ?_⟩
      cases hres : resolveNode d n with
      | none => rw [hres] at hpred; exact absurd hpred (by simp)
      | some e =>
        rw [hres] at hpred
        rw [resolveNode] at hres
        cases ht : n.target with
        | none => rw [ht] at hres; exact absurd hres (by simp)
        | some t =>
          rw [ht] at hres
          exact ⟨t, rfl, e, hres, hq _ _ hres, hpred⟩
    · rintro ⟨hv, n, hn, t, ht, e, hqe, _, hcont⟩
      refine ⟨hv, ?_⟩
      rw [violationTouchesWidget, List.any_eq_true]
      refine ⟨n, hn, ?_⟩
      have hres : resolveNode d n = some e := by rw [resolveNode, ht]; exact hqe
      rw [hres]
      exact hcont
  · simp [containsElem]
  · intro hv hA hB
    constructor
    · rw [widgetViolations, List.mem_filter]
      exact ⟨hv, hA⟩
    · rw [widgetViolations, List.mem_filter]
      exact ⟨hv, hB⟩

/-- Witness for the claim-C3 theorem: `vBoth` has one affected node
resolving into each of the two widgets and is attributed to both; a widget
contains itself. -/
theorem widgetViolations_attribution_witness :
    (vBoth ∈ widgetViolations dFix eCard [vInA, vBoth] ∧
      vBoth ∈ widgetViolations dFix eWidgetB [vInA, vBoth]) ∧
    containsElem eCard eCard = true := by
  have hq : ∀ (s : String) (e : Elem), dFix.query s = some e → dFix.lives e = true := by
    intro s e hres
    have h2 : (if s = "#a" then some eImgA else if s = "#b" then some eImgB else none) =
        some e := hres
    by_cases h1 : s = "#a"
    · rw [if_pos h1] at h2
      injection h2 with h3
      rw [← h3]
      rfl
    · rw [if_neg h1] at h2
      by_cases hb : s = "#b"
      · rw [if_pos hb] at h2
        injection h2 with h3
        rw [← h3]
        rfl
      · rw [if_neg hb] at h2
        exact Option.noConfusion h2
  exact ⟨(widgetViolations_attribution dFix eCard eWidgetB [vInA, vBoth] vBoth hq).2.2
      (by decide) rfl rfl,
    (widgetViolations_attribution dFix eCard eWidgetB [vInA, vBoth] vBoth hq).2.1⟩

/-- One widget-cache write preserves "UI attached iff positive count". -/
theorem applyWidgetOp_preserves (st : WidgetState) (op : WidgetOp)
    (h : st.hasUI = decide (0 < st.lastViolationCount)) :
    (applyWidgetOp st op).hasUI = decide (0 < (applyWidgetOp st op).lastViolationCount) := by
  cases op with
  | clear =>
    show clearedWidgetState.hasUI = decide (0 < clearedWidgetState.lastViolationCount)
    decide
  | render vs =>
    simp only [applyWidgetOp, renderWidgetUI]
    split_ifs with hc hz
    · exact h
    · decide
    · have hpos : (0 : Int) < (vs.length : Int) := by
        exact_mod_cast Nat.pos_of_ne_zero hz
      simp [hpos]

/-- The invariant holds along every trajectory of cache writes. -/
theorem foldl_widgetOp_inv (ops : List WidgetOp) :
    ∀ st : WidgetState, st.hasUI = decide (0 < st.lastViolationCount) →
      (ops.foldl applyWidgetOp st).hasUI =
        decide (0 < (ops.foldl applyWidgetOp st).lastViolationCount) := by
  induction ops with
  | nil => intro st h; exact h
  | cons op rest ih => intro st h; exact ih _ (applyWidgetOp_preserves st op h)

/-- Claim C10: every widget state ever stored or returned satisfies
`hasUI = true` iff `lastViolationCount > 0` (the default, the cleared state,
and every state written by `clearWidgetUI` / `renderWidgetUI` along any
trajectory); the default for a never-rendered widget is
`{lastViolationCount: -1, hasUI: false}`; and a first `renderWidgetUI` call
on a fresh widget never takes the no-op branch (it always performs DOM
writes, since `-1` matches no list length). -/
theorem widgetState_invariant :
    (∀ ops : List WidgetOp,
      (ops.foldl applyWidgetOp defaultWidgetState).hasUI =
        decide (0 < (ops.foldl applyWidgetOp defaultWidgetState).lastViolationCount)) ∧
    defaultWidgetState = WidgetState.mk (-1) false ∧
    (∀ w : Nat, lookupState [] w = WidgetState.mk (-1) false) ∧
    clearedWidgetState = WidgetState.mk 0 false ∧
    (∀ (w : Nat) (vs : List AxeViolation),
      (renderWidgetUI w defaultWidgetState vs).2.isEmpty = false) := by
  refine ⟨fun ops => foldl_widgetOp_inv ops defaultWidgetState (by decide), rfl,
    fun w => rfl, rfl, ?_⟩
  intro w vs
  simp only [renderWidgetUI]
  split_ifs with hc hz
  · exfalso
    have h1 : (-1 : Int) = (vs.length : Int) := hc.1
    omega
  · rfl
  · rfl

/-- One debouncer event preserves "the active set is empty or exactly the
stored handle". -/
theorem debounceStep_inv (st : DebouncerState) (op : DebounceOp)
    (h : st.sys.active = [] ∨ ∃ i, st.sys.active = [i] ∧ st.recheckTimeout = some i) :
    (debounceStep st op).sys.active = [] ∨
      ∃ i, (debounceStep st op).sys.active = [i] ∧
        (debounceStep st op).recheckTimeout = some i := by
  cases op with
  | schedule =>
    right
    refine ⟨st.sys.nextId, ?_, ?_⟩
    · rcases h with h | ⟨i, ha, ht⟩
      · cases hrt : st.recheckTimeout with
        | none =>
          simp [debounceStep, debounceRecheckModel, hrt, setTimeoutModel, h]
        | some id =>
          simp [debounceStep, debounceRecheckModel, hrt, clearTimeoutModel,
            setTimeoutModel, h]
      · simp [debounceStep, debounceRecheckModel, ht, clearTimeoutModel,
          setTimeoutModel, ha]
    · rcases h with h | ⟨i, ha, ht⟩
      · cases hrt : st.recheckTimeout with
        | none => simp [debounceStep, debounceRecheckModel, hrt, setTimeoutModel]
        | some id =>
          simp [debounceStep, debounceRecheckModel, hrt, clearTimeoutModel,
            setTimeoutModel]
      · simp [debounceStep, debounceRecheckModel, ht, clearTimeoutModel, setTimeoutModel]
  | fire id =>
    rcases h with h | ⟨i, ha, ht⟩
    · left
      simp [debounceStep, fireModel, clearTimeoutModel, h]
    · by_cases hid : id = i
      · left
        simp [debounceStep, fireModel, clearTimeoutModel, ha, hid]
      · right
        have hne : (i == id) = false := by
          simp
          exact fun hh => hid hh.symm
        refine ⟨i, ?_, ht⟩
        simp [debounceStep, fireModel, clearTimeoutModel, ha, List.erase_cons, hne]

/-- The single-pending invariant holds along every event sequence from the
initial state. -/
theorem debounce_steps_inv (ops : List DebounceOp) :
    ∀ st : DebouncerState,
      (st.sys.active = [] ∨ ∃ i, st.sys.active = [i] ∧ st.recheckTimeout = some i) →
      ((ops.foldl debounceStep st).sys.active = [] ∨
        ∃ i, (ops.foldl debounceStep st).sys.active = [i] ∧
          (ops.foldl debounceStep st).recheckTimeout = some i) := by
  induction ops with
  | nil => intro st h; exact h
  | cons op rest ih => intro st h; exact ih _ (debounceStep_inv st op h)

/-- Call times forming a chain of gaps below the delay leave exactly one
timer to fire. -/
theorem firedAudits_chain (delay : Nat) :
    ∀ (rest : List Nat) (t : Nat),
      List.Chain' (fun a b => b < a + delay) (t :: rest) →
      firedAudits delay (t :: rest) = 1 := by
  intro rest
  induction rest with
  | nil => intro t _; rfl
  | cons t2 r2 ih =>
    intro t hch
    rw [List.chain'_cons] at hch
    show (if t2 < t + delay then 0 else 1) + firedAudits delay (t2 :: r2) = 1
    rw [if_pos hch.1, ih t2 hch.2]

/-- Claim C7: at most one pending scheduled re-audit exists at any time —
along every sequence of `debounceRecheck` calls and timer firings from the
initial state, the set of live timers has at most one element (each call
cancels the stored pending timer before storing a new one) — and N schedule
requests, each issued less than the debounce delay after the previous one,
produce exactly one audit invocation. -/
theorem debounce_single_pending_and_coalescing :
    (∀ ops : List DebounceOp,
      (ops.foldl debounceStep initDebouncer).sys.active.length ≤ 1) ∧
    (∀ (delay : Nat) (ts : List Nat), ts ≠ [] →
      List.Chain' (fun a b => b < a + delay) ts → firedAudits delay ts = 1) := by
  constructor
  · intro ops
    rcases debounce_steps_inv ops initDebouncer (Or.inl rfl) with h | ⟨i, h, _⟩ <;>
      simp [h]
  · intro delay ts hne hch
    cases ts with
    | nil => exact absurd rfl hne
    | cons t rest => exact firedAudits_chain delay rest t hch

/-- Witness for the claim-C7 theorem: a concrete event sequence keeps at
most one live timer, and three schedule calls 100-150 ms apart under a
300 ms delay fire exactly one audit. -/
theorem debounce_single_pending_and_coalescing_witness :
    (([DebounceOp.schedule, DebounceOp.schedule, DebounceOp.fire 1,
        DebounceOp.schedule].foldl debounceStep initDebouncer).sys.active.length ≤ 1) ∧
    firedAudits 300 [0, 100, 250] = 1 :=
  ⟨debounce_single_pending_and_coalescing.1 _,
    debounce_single_pending_and_coalescing.2 300 [0, 100, 250] (by simp)
      (by simp [List.chain'_cons])⟩

/-- Counterexample for claim C5: with an empty `widgetSelectors` list no
element matches, yet `recheckAll` does not return with no UI side effects —
the combined selector is the empty string, `querySelectorAll` throws a
`SyntaxError`, and the call rejects. -/
theorem recheckAll_empty_selectors_rejects :
    cfgEmptySel.widgetSelectors = [] ∧
    recheckAllModel cfgEmptySel dFix engOk [] true = Except.error "SyntaxError" :=
  ⟨rfl, rfl⟩

/-- Claim C5 (amended): every `recheckAll` call whose widget-set resolution
succeeds completes without rejecting; when no widgets match it returns at
once with no per-widget UI event; otherwise its event trace starts (after
the optional stylesheet injection) with a `clearWidgetUI` for every matched
widget, and no clearing happens afterwards — all rendering and engine work
comes after the clears. -/
theorem recheckAll_clears_before_rendering
    (c : Config) (d : Doc) (eng : Engine) (states : StateMap) (hasStyle : Bool)
    (ws : List Elem)
    (hres : getAllWidgetsModel d c.widgetSelectors = Except.ok ws) :
    ∃ (finalStates : StateMap) (evs : List REv),
      recheckAllModel c d eng states hasStyle = Except.ok (finalStates, evs) ∧
      (ws = [] → finalStates = states ∧ evs.filter isWidgetUIEvent = []) ∧
      (ws ≠ [] → ∃ rest,
        evs = (if hasStyle then [] else [REv.styleInject]) ++
          (ws.map (fun w => REv.clearUI w.id) ++ rest) ∧
        ∀ e ∈ rest, isClearEvent e = false) := by
  by_cases hempty : ws = []
  · subst hempty
    refine ⟨states, (if hasStyle then [] else [REv.styleInject]), ?_, ?_, ?_⟩
    · simp only [recheckAllModel, hres]
      rfl
    · intro _
      refine ⟨rfl, ?_⟩
      cases hasStyle <;> rfl
    · intro hne
      exact absurd rfl hne
  · have hne2 : ws.isEmpty = false := by
      cases ws with
      | nil => exact absurd rfl hempty
      | cons a l => rfl
    refine ⟨(recheckLoop c d eng ws 0 (c.maxRetries + 1) (clearAllWidgets ws states).1).1,
      (if hasStyle then [] else [REv.styleInject]) ++ (clearAllWidgets ws states).2 ++
        (recheckLoop c d eng ws 0 (c.maxRetries + 1) (clearAllWidgets ws states).1).2,
      ?_, ?_, ?_⟩
    · simp only [recheckAllModel, hres, hne2, Bool.false_eq_true, if_false]
    · intro h
      exact absurd h hempty
    · intro _
      refine ⟨(recheckLoop c d eng ws 0 (c.maxRetries + 1)
        (clearAllWidgets ws states).1).2, ?_, ?_⟩
      · rw [clearAllWidgets_snd, List.append_assoc]
      · exact fun e he => recheckLoop_no_clear c d eng ws (c.maxRetries + 1) 0
          (clearAllWidgets ws states).1 e he

/-- Witness for the amended claim-C5 theorem at the `.card-video` fixture
(nonempty widget set, resolution succeeds). -/
theorem recheckAll_clears_before_rendering_witness :
    ∃ (finalStates : StateMap) (evs : List REv),
      recheckAllModel cfgCard dFix engOk [] true = Except.ok (finalStates, evs) ∧
      (([eCard, eWidgetB] : List Elem) = [] →
        finalStates = [] ∧ evs.filter isWidgetUIEvent = []) ∧
      (([eCard, eWidgetB] : List Elem) ≠ [] → ∃ rest,
        evs = (if (true : Bool) then [] else [REv.styleInject]) ++
          ([eCard, eWidgetB].map (fun w => REv.clearUI w.id) ++ rest) ∧
        ∀ e ∈ rest, isClearEvent e = false) :=
  recheckAll_clears_before_rendering cfgCard dFix engOk [] true [eCard, eWidgetB] rfl

/-- Claim C6: with an empty `widgetSelectors` list the combined selector is
the empty string, which does not parse as a selector list; the modelled
`querySelectorAll` therefore throws, and `clearAll`, `getWidgetStates` (both
synchronously) and `recheckAll` (as a rejection) all propagate the
`SyntaxError` to the caller instead of resolving to zero widgets as a
silent no-op. -/
theorem empty_selector_query_raises :
    parseSelectorList (joinWithCommaSpace ([] : List String)) = none ∧
    getAllWidgetsModel dFix [] = Except.error "SyntaxError" ∧
    clearAllModel dFix [] [] = Except.error "SyntaxError" ∧
    getWidgetStatesModel dFix [] [] = Except.error "SyntaxError" ∧
    recheckAllModel cfgEmptySel dFix engOk [] true = Except.error "SyntaxError" :=
  ⟨rfl, rfl, rfl, rfl, rfl⟩

/-- Claim C8, evaluated at the failing input: `destroy` on a validator with
one matched widget currently showing a popup (outside-click handler 7 on
`document`).  It stops the observer, cancels the pending timer, clears the
widget's UI and removes the stylesheet — but because `clearAll` removes the
popup elements *before* the handler-cleanup pass queries the document for
popups, handler 7 is never detached and stays registered (`[7]` in the
result).  The second conjunct shows the pass only detaches handlers of
*stale* popups: one sitting on an element that no longer matches any
selector (handler 9) is removed. -/
theorem destroy_leaks_outside_click_listener :
    destroyModel [1] sDestroy =
      DestroyState.mk false (some 3) [] [] [] [7] false [(1, WidgetState.mk 0 false)] ∧
    destroyModel [1] sDestroyStale =
      DestroyState.mk false none [] [] [PopupEl.mk 5 (some 9)] [] false
        [(1, WidgetState.mk 0 false)] :=
  ⟨rfl, rfl⟩

/-- Counterexample for claim C9: `getConfig` copies the *reference* to the
`widgetSelectors` array (shallow spread), so pushing onto the array reached
through the returned object changes what the validator itself subsequently
reads — the internal configuration is not left unchanged. -/
theorem getConfig_shared_selectors_mutation :
    (getConfigJS cfgObjFix).widgetSelectorsRef = cfgObjFix.widgetSelectorsRef ∧
    readSelectors hFix cfgObjFix = [".card-video"] ∧
    readSelectors (heapPush hFix (getConfigJS cfgObjFix).widgetSelectorsRef ".evil")
      cfgObjFix = [".card-video", ".evil"] ∧
    ((readSelectors (heapPush hFix (getConfigJS cfgObjFix).widgetSelectorsRef ".evil")
      cfgObjFix == readSelectors hFix cfgObjFix) = false) :=
  ⟨rfl, rfl, rfl, rfl⟩

/-- Claim C9 (amended): `getConfig` returns a *shallow* copy — a fresh
object sharing the nested `widgetSelectors` array reference — so for every
validator configuration and heap, mutating the array through the returned
copy is visible through the validator's own configuration (the push lands
in the list the validator reads). -/
theorem getConfig_shallow_copy (c : ConfigObj) (h : ArrayHeap) (s : String) :
    (getConfigJS c).widgetSelectorsRef = c.widgetSelectorsRef ∧
    readSelectors (heapPush h (getConfigJS c).widgetSelectorsRef s) c =
      readSelectors h c ++ [s] := by
  refine ⟨rfl, ?_⟩
  show heapPush h c.widgetSelectorsRef s c.widgetSelectorsRef = h c.widgetSelectorsRef ++ [s]
  simp [heapPush]
